import Mathlib

/-!
Verification of the asynchronous featurization job core of `cesium_web`
(`cesium_app/handlers/feature.py`): the `post` submission handler and the
`_await_featurization` completion watcher, together with the Job Record
(`Featureset`) lifecycle, the submitted task graph, and the notification
events emitted on success and failure.

The handlers are embedded as pure functions.  Side effects (session
operations, commits, notification actions, the response) are recorded in an
ordered event trace, so ordering claims ("commit happens before the success
response", "the error notification precedes the refresh event") are
statements about the trace.  The distributed worker pool is represented
syntactically: `client.map` / `client.submit` build `TaskNode` graphs, and
the pool-assigned correlation keys (`future.key`) are supplied by an
environment function.
-/

/-- A JSON-ish request value, as needed for `data.items()`: the request body
maps string keys to strings (`featuresetName`, `customFeatsCode`), a number
(`datasetID`) or booleans (the per-feature checkboxes). -/
inductive Val where
  | str (s : String)
  | num (n : Nat)
  | bool (b : Bool)
  deriving DecidableEq, Repr

/-- Python truthiness, used by the `... and selected` filter in `post`. -/
def Val.truthy : Val → Bool
  | .str s => s ≠ ""
  | .num n => n ≠ 0
  | .bool b => b

/-- The JSON body of a featurization request:
`{featuresetName, datasetID, customFeatsCode, <featureName>: bool, ...}`. -/
structure Request where
  featuresetName : String
  datasetID : Nat
  customFeatsCode : String
  featureFlags : List (String × Bool)
  deriving DecidableEq, Repr

/-- `data.items()`: every key/value pair of the request body, the three fixed
keys followed by the per-feature checkbox keys. -/
def Request.items (r : Request) : List (String × Val) :=
  ("featuresetName", .str r.featuresetName) ::
  ("datasetID", .num r.datasetID) ::
  ("customFeatsCode", .str r.customFeatsCode) ::
  r.featureFlags.map (fun kv => (kv.1, .bool kv.2))

/-- A file of a dataset (`dataset.files`, each with a storage `uri`). -/
structure DSFile where
  uri : String
  deriving DecidableEq, Repr

/-- A dataset row: id, owning project and owner, and its time-series files. -/
structure Dataset where
  id : Nat
  project : Nat
  owner : Nat
  files : List DSFile
  deriving DecidableEq, Repr

/-- Modelled from the spec: `Dataset.is_owned_by` (the ORM ownership check
lives in `models.py`, outside the embedded source) — "The dataset must be
owned by the requesting principal". -/
def Dataset.is_owned_by (d : Dataset) (user : Nat) : Bool :=
  d.owner == user

/-- The Job Record (`Featureset` row): `task_id` is the pool correlation
token (absent = `None`), `finished` the completion timestamp (absent while
pending). -/
structure Featureset where
  id : Nat
  name : String
  file_uri : String
  project : Nat
  features_list : List String
  custom_features_script : Option String
  task_id : Option String
  finished : Option Nat
  deriving DecidableEq, Repr

/-- The persistence store visible through `DBSession()`: the committed
`Featureset` rows. -/
structure Session where
  records : List Featureset
  deriving DecidableEq, Repr

/-- `DBSession().add(fset)`: a new row enters the store. -/
def Session.add (s : Session) (f : Featureset) : Session :=
  ⟨s.records ++ [f]⟩

/-- Write-back of a (merged and mutated) instance: the row with the same id
is overwritten; a row not present is inserted. -/
def Session.setRecord (s : Session) (f : Featureset) : Session :=
  if s.records.any (fun r => r.id == f.id) then
    ⟨s.records.map (fun r => if r.id == f.id then f else r)⟩
  else
    ⟨s.records ++ [f]⟩

/-- `DBSession().merge(fset)`: re-attach the given instance to the active
session, overwriting the stored state of the row with its id. -/
def Session.merge (s : Session) (f : Featureset) : Session :=
  s.setRecord f

/-- `DBSession().delete(fset)`: the row with the instance's id is removed. -/
def Session.deleteRecord (s : Session) (f : Featureset) : Session :=
  ⟨s.records.filter (fun r => r.id != f.id)⟩

/-- `Dataset.query.filter(Dataset.id == dataset_id).one()`: exactly one
matching row, else a raised exception. -/
def queryOne (datasets : List Dataset) (dataset_id : Nat) : Except String Dataset :=
  match datasets.filter (fun d => d.id == dataset_id) with
  | [d] => .ok d
  | [] => .error "NoResultFound"
  | _ => .error "MultipleResultsFound"

/-- Payload of a `baselayer/SHOW_NOTIFICATION` action: the note text and the
optional `"type"` flag (`some "error"` on the failure path). -/
structure Payload where
  note : String
  type : Option String
  deriving DecidableEq, Repr

/-- A node of the task graph submitted to the worker pool.  `client.map`
produces one node per item; `client.submit` one node.  Keyword arguments
that parameterize the remote calls are carried on the node. -/
inductive TaskNode where
  | load (uri : String)
  | label (ts : TaskNode)
  | featurize (ts : TaskNode) (features_to_use : List String)
      (custom_script_path : Option String) (raise_exceptions : Bool)
  | assemble (features : List TaskNode) (time_series : List TaskNode)
  | impute (fset : TaskNode) (inplace : Bool)
  | save (fset : TaskNode) (path : String) (labels : List TaskNode)

/-- One observable step of a handler run, in program order. -/
inductive WEvent where
  | add (f : Featureset)
  | merge (f : Featureset)
  | delete (f : Featureset)
  | commit (snapshot : Session)
  | submitPipeline (terminal : TaskNode)
  | spawnWatcher (future : TaskNode) (f : Featureset)
  | action (name : String) (payload : Option Payload)
  | respondSuccess (f : Featureset) (act : String)
  | respondError (msg : String)

/-- Ambient state of a `post` call: the feature catalog
(`dask_feature_graph`), configuration, the UUID drawn at submission time,
the authenticated user, the dataset table, the id the store assigns to the
new row, and the pool's key assignment for submitted futures. -/
structure PostEnv where
  catalog : List String
  features_folder : String
  fresh_uuid : String
  current_user : Nat
  datasets : List Dataset
  new_id : Nat
  keyOf : TaskNode → String

/-- Result of a `post` call: a validation error response, a raised
exception, or success carrying the committed record and the terminal
future handed to the watcher. -/
inductive PostOutcome where
  | error (msg : String)
  | exn (e : String)
  | success (fset : Featureset) (future : TaskNode)

/-- Full observable outcome of `post`: result, final store, event trace. -/
structure PostOut where
  outcome : PostOutcome
  db : Session
  events : List WEvent

/-- `features_to_use = [feature for (feature, selected) in data.items()
if feature in dask_feature_graph and selected]`. -/
def features_to_use (catalog : List String) (req : Request) : List String :=
  (req.items.filter (fun kv => catalog.contains kv.1 && kv.2.truthy)).map
    (fun kv => kv.1)

namespace FeatureHandler

/-- `FeatureHandler.post`: validate the feature selection, check dataset
ownership, create the Job Record, submit the six-call task graph
(`map load`, `map label`, `map featurize_single_ts`,
`submit assemble_featureset`, `submit impute_featureset`,
`submit save_featureset`), store the terminal future's key as `task_id`,
commit, spawn the watcher, and return success. -/
def post (env : PostEnv) (req : Request) (db : Session) : PostOut :=
  let featureset_name := req.featuresetName
  let dataset_id := req.datasetID
  let features := features_to_use env.catalog req
  if features.isEmpty then
    { outcome := .error "At least one feature must be selected.",
      db := db,
      events := [.respondError "At least one feature must be selected."] }
  else
    let custom_feats_code := req.customFeatsCode.trim
    let custom_script_path : Option String := none
    match queryOne env.datasets dataset_id with
    | .error e => { outcome := .exn e, db := db, events := [] }
    | .ok dataset =>
      if !dataset.is_owned_by env.current_user then
        { outcome := .exn "AccessError: No such data set", db := db, events := [] }
      else
        let fset_path := env.features_folder ++ "/" ++ env.fresh_uuid ++
          "_featureset.npz"
        let fset : Featureset :=
          { id := env.new_id,
            name := featureset_name,
            file_uri := fset_path,
            project := dataset.project,
            features_list := features,
            custom_features_script := none,
            task_id := none,
            finished := none }
        let db1 := db.add fset
        let all_time_series := dataset.files.map (fun f => TaskNode.load f.uri)
        let all_labels := all_time_series.map TaskNode.label
        let all_features := all_time_series.map
          (fun ts => TaskNode.featurize ts features custom_script_path false)
        let computed_fset := TaskNode.assemble all_features all_time_series
        let imputed_fset := TaskNode.impute computed_fset false
        let future := TaskNode.save imputed_fset fset_path all_labels
        let fset2 := { fset with task_id := some (env.keyOf future) }
        let db2 := db1.setRecord fset2
        { outcome := .success fset2 future,
          db := db2,
          events := [.add fset, .submitPipeline future, .commit db2,
                     .spawnWatcher future fset2,
                     .respondSuccess fset2 "cesium/FETCH_FEATURESETS"] }

/-- `FeatureHandler._await_featurization`: the completion watcher.  On a
successful future: merge the record into the active session, clear
`task_id`, stamp `finished`, commit, emit the success notification; on any
exception: delete the record, commit, emit the error notification; in both
cases finish with the `cesium/FETCH_FEATURESETS` refresh action. -/
def _await_featurization (result : Except String Unit) (fset : Featureset)
    (db : Session) (now : Nat) : Session × List WEvent :=
  match result with
  | .ok _ =>
      let merged := { fset with task_id := none, finished := some now }
      let db1 := (db.merge fset).setRecord merged
      (db1,
       [.merge fset,
        .commit db1,
        .action "baselayer/SHOW_NOTIFICATION"
          (some { note := "Calculation of featureset '" ++ merged.name ++
                    "' completed.",
                  type := none }),
        .action "cesium/FETCH_FEATURESETS" none])
  | .error e =>
      let db1 := db.deleteRecord fset
      (db1,
       [.delete fset,
        .commit db1,
        .action "baselayer/SHOW_NOTIFICATION"
          (some { note := "Cannot featurize " ++ fset.name ++ ": " ++ e,
                  type := some "error" }),
        .action "cesium/FETCH_FEATURESETS" none])

/-- `FeatureHandler.get` without an id: the featuresets of the user's
projects (`[f for p in self.current_user.projects for f in p.featuresets]`),
as a membership-faithful listing query over the store. -/
def get (db : Session) (user_projects : List Nat) : List Featureset :=
  db.records.filter (fun f => user_projects.contains f.project)

end FeatureHandler

/-! ### Semantics of the remote pipeline

The stage functions (`time_series.load`, `featurize.featurize_single_ts`,
`featurize.assemble_featureset`, `featurize.impute_featureset`,
`featurize.save_featureset`) live in the external `cesium` library, an
external collaborator of this repository.  Their behaviour, as far as the
claims need it, is modelled from the spec's contract for the five stages. -/

/-- Modelled from the spec: what the storage holds for one time series — its
label, and whether per-item feature extraction fails on it ("must not raise
on a per-item failure — failures are converted to in-band missing values"). -/
structure SeriesData where
  label : String
  featurizeFails : Bool
  deriving DecidableEq, Repr

/-- One row of the assembled tabular feature set: computed normally, an
in-band missing-value marker, or a missing value replaced by imputation. -/
inductive RowVal where
  | computed
  | missingRow
  | imputedRow
  deriving DecidableEq, Repr

/-- Runtime values produced by pipeline stages. -/
inductive Value where
  | ts (d : SeriesData)
  | lab (s : String)
  | row (r : RowVal)
  | table (rows : List RowVal)
  | saved (path : String) (rows : List RowVal) (labels : List String)
  deriving DecidableEq, Repr

mutual

/-- Modelled from the spec: evaluation of a submitted task graph against a
storage environment mapping file uris to series.  A failing series produces
a missing-value row when `raise_exceptions` is off, and a stage error when
it is on; `impute` replaces missing rows; `save` pairs the table with the
evaluated labels at the given path. -/
def evalNode (env : String → Option SeriesData) : TaskNode → Except String Value
  | .load uri =>
      match env uri with
      | some d => .ok (.ts d)
      | none => .error ("cannot load " ++ uri)
  | .label t => do
      match ← evalNode env t with
      | .ts d => .ok (.lab d.label)
      | _ => .error "label: not a time series"
  | .featurize t _ _ re => do
      match ← evalNode env t with
      | .ts d =>
          if d.featurizeFails then
            if re then .error "featurization failed" else .ok (.row .missingRow)
          else .ok (.row .computed)
      | _ => .error "featurize: not a time series"
  | .assemble fs tss => do
      let vs ← evalList env fs
      let _ ← evalList env tss
      let rows ← vs.mapM (fun v => match v with
        | .row r => Except.ok r
        | _ => Except.error "assemble: not a feature row")
      .ok (.table rows)
  | .impute t _ => do
      match ← evalNode env t with
      | .table rows =>
          .ok (.table (rows.map (fun r =>
            match r with | .missingRow => .imputedRow | x => x)))
      | _ => .error "impute: not a table"
  | .save t path labels => do
      match ← evalNode env t with
      | .table rows => do
          let lvs ← evalList env labels
          let labs ← lvs.mapM (fun v => match v with
            | .lab s => Except.ok s
            | _ => Except.error "save: not a label")
          .ok (.saved path rows labs)
      | _ => .error "save: not a table"

/-- Evaluate a list of task nodes (the futures returned by `client.map`). -/
def evalList (env : String → Option SeriesData) :
    List TaskNode → Except String (List Value)
  | [] => .ok []
  | n :: ns => do
      let v ← evalNode env n
      let vs ← evalList env ns
      .ok (v :: vs)

end

mutual

/-- All `custom_script_path` arguments of `featurize` stages in a graph. -/
def TaskNode.scripts : TaskNode → List (Option String)
  | .load _ => []
  | .label t => t.scripts
  | .featurize t _ sp _ => sp :: t.scripts
  | .assemble fs tss => scriptsList fs ++ scriptsList tss
  | .impute t _ => t.scripts
  | .save t _ labels => t.scripts ++ scriptsList labels

/-- `TaskNode.scripts` over a list of nodes. -/
def scriptsList : List TaskNode → List (Option String)
  | [] => []
  | n :: ns => n.scripts ++ scriptsList ns

end

/-- `commit` snapshots appearing in an event trace, in order. -/
def commitsOf (evs : List WEvent) : List Session :=
  evs.filterMap (fun e => match e with | .commit s => some s | _ => none)

/-- Discriminator: is the event a session re-attach (`merge`)? -/
def WEvent.isMerge : WEvent → Bool
  | .merge _ => true
  | _ => false

/-- Discriminator: is the event a session `delete`? -/
def WEvent.isDelete : WEvent → Bool
  | .delete _ => true
  | _ => false

/-- The future of a successful `post` outcome, if any. -/
def PostOutcome.futureOf : PostOutcome → Option TaskNode
  | .success _ fut => some fut
  | _ => none

/-- The task graph exactly as claim C5 words it: the assemble stage is fed
the per-series feature outputs *paired with their labels*.  (The source
instead feeds `assemble_featureset` the loaded time series and passes the
labels to the terminal `save_featureset` call.) -/
def claimedGraphC5 (uris : List String) (feats : List String)
    (script : Option String) (path : String) : TaskNode :=
  let all_time_series := uris.map TaskNode.load
  let all_labels := all_time_series.map TaskNode.label
  let all_features := all_time_series.map
    (fun ts => TaskNode.featurize ts feats script false)
  TaskNode.save (TaskNode.impute (TaskNode.assemble all_features all_labels) false)
    path all_labels

/-- The terminal future `post` builds (source lines 85-98): `save_featureset`
applied to the imputed assembly of the per-series feature rows, at the
pre-generated path, with the per-series labels. -/
def terminalFuture (env : PostEnv) (req : Request) (d : Dataset) : TaskNode :=
  let all_time_series := d.files.map (fun f => TaskNode.load f.uri)
  TaskNode.save
    (TaskNode.impute
      (TaskNode.assemble
        (all_time_series.map (fun ts =>
          TaskNode.featurize ts (features_to_use env.catalog req) none false))
        all_time_series)
      false)
    (env.features_folder ++ "/" ++ env.fresh_uuid ++ "_featureset.npz")
    (all_time_series.map TaskNode.label)

/-- The Job Record as `post` constructs it (source lines 76-80), before the
task id is stored. -/
def pendingRecord (env : PostEnv) (req : Request) (d : Dataset) : Featureset :=
  { id := env.new_id,
    name := req.featuresetName,
    file_uri := env.features_folder ++ "/" ++ env.fresh_uuid ++ "_featureset.npz",
    project := d.project,
    features_list := features_to_use env.catalog req,
    custom_features_script := none,
    task_id := none,
    finished := none }

/-- The Job Record at `post`'s commit point (source line 99-100): the
pending record carrying the terminal future's correlation key. -/
def submittedRecord (env : PostEnv) (req : Request) (d : Dataset) : Featureset :=
  { pendingRecord env req d with
      task_id := some (env.keyOf (terminalFuture env req d)) }

/-! ### Concrete example inputs (used by witnesses and counterexamples) -/

/-- A dataset with three series files, owned by user 42. -/
def exDataset : Dataset :=
  { id := 5, project := 9, owner := 42,
    files := [⟨"a.dat"⟩, ⟨"b.dat"⟩, ⟨"c.dat"⟩] }

/-- An ambient environment: two-feature catalog, dataset table holding
`exDataset`, pool assigning key `"t-123"`. -/
def exEnv : PostEnv :=
  { catalog := ["amplitude", "period"],
    features_folder := "feats",
    fresh_uuid := "u1",
    current_user := 42,
    datasets := [exDataset],
    new_id := 1,
    keyOf := fun _ => "t-123" }

/-- A request selecting both catalog features of `exDataset`. -/
def exReq : Request :=
  { featuresetName := "X",
    datasetID := 5,
    customFeatsCode := "",
    featureFlags := [("amplitude", true), ("period", true)] }

/-- An empty persistence store. -/
def exDb : Session := ⟨[]⟩

/-- A pending Job Record as the watcher receives it. -/
def exFset : Featureset :=
  { id := 1, name := "X", file_uri := "feats/u1_featureset.npz", project := 9,
    features_list := ["amplitude", "period"], custom_features_script := none,
    task_id := some "t-123", finished := none }

/-- A store holding the pending record `exFset`. -/
def exDbPending : Session := ⟨[exFset]⟩

/-- Storage contents for the three example series; featurization fails on
the second series. -/
def exSemEnv : String → Option SeriesData
  | "a.dat" => some ⟨"A", false⟩
  | "b.dat" => some ⟨"B", true⟩
  | "c.dat" => some ⟨"C", false⟩
  | _ => none

/-! ### Helper lemmas on the persistence store -/

theorem Session.mem_setRecord_eq {s : Session} {f r : Featureset}
    (hr : r ∈ (s.setRecord f).records) (hid : r.id = f.id) : r = f := by
  unfold Session.setRecord at hr
  by_cases h : s.records.any (fun x => x.id == f.id) = true
  · rw [if_pos h] at hr
    simp only [List.mem_map] at hr
    obtain ⟨x, hx, hxr⟩ := hr
    by_cases hxf : (x.id == f.id) = true
    · rw [if_pos hxf] at hxr
      exact hxr.symm
    · rw [if_neg hxf] at hxr
      subst hxr
      exact absurd (by simpa using hid) (by simpa using hxf)
  · rw [if_neg h] at hr
    simp only [List.mem_append, List.mem_singleton] at hr
    rcases hr with hr | hr
    · exact absurd (List.any_eq_true.mpr ⟨r, hr, by simpa using hid⟩) h
    · exact hr

theorem Session.exists_mem_setRecord (s : Session) (f : Featureset) :
    ∃ r ∈ (s.setRecord f).records, r.id = f.id := by
  refine ⟨f, ?_, rfl⟩
  unfold Session.setRecord
  by_cases h : s.records.any (fun x => x.id == f.id) = true
  · rw [if_pos h]
    simp only [List.any_eq_true] at h
    obtain ⟨x, hx, hxf⟩ := h
    simp only [List.mem_map]
    exact ⟨x, hx, by rw [if_pos hxf]⟩
  · rw [if_neg h]
    simp

theorem Session.mem_deleteRecord_ne {s : Session} {f r : Featureset}
    (hr : r ∈ (s.deleteRecord f).records) : r.id ≠ f.id := by
  unfold Session.deleteRecord at hr
  simp only [List.mem_filter] at hr
  simpa using hr.2

/-- Shape of a successful `post` run: with a non-empty filtered feature list
and an owned dataset, the handler returns the submitted record and terminal
future, the store gains the record, and the trace is add, submit, commit,
spawn, success-response. -/
theorem post_success_eq (env : PostEnv) (req : Request) (db : Session)
    (d : Dataset)
    (h1 : features_to_use env.catalog req ≠ [])
    (h2 : queryOne env.datasets req.datasetID = .ok d)
    (h3 : d.is_owned_by env.current_user = true) :
    FeatureHandler.post env req db =
      { outcome := .success (submittedRecord env req d) (terminalFuture env req d),
        db := (db.add (pendingRecord env req d)).setRecord (submittedRecord env req d),
        events := [.add (pendingRecord env req d),
                   .submitPipeline (terminalFuture env req d),
                   .commit ((db.add (pendingRecord env req d)).setRecord
                     (submittedRecord env req d)),
                   .spawnWatcher (terminalFuture env req d) (submittedRecord env req d),
                   .respondSuccess (submittedRecord env req d)
                     "cesium/FETCH_FEATURESETS"] } := by
  have hne : (features_to_use env.catalog req).isEmpty = false :=
    List.isEmpty_eq_false.mpr h1
  simp only [FeatureHandler.post, hne, h2, h3, Bool.not_true, Bool.false_eq_true,
    if_false, terminalFuture, pendingRecord, submittedRecord]

/-! ### Helper lemmas on pipeline evaluation -/

theorem evalList_map_ok {α : Type} (env : String → Option SeriesData)
    (l : List α) (f : α → TaskNode) (g : α → Value)
    (h : ∀ a ∈ l, evalNode env (f a) = .ok (g a)) :
    evalList env (l.map f) = .ok (l.map g) := by
  induction l with
  | nil => rfl
  | cons a l ih =>
      simp only [List.map_cons, evalList, h a (by simp),
        ih (fun a ha => h a (by simp [ha]))]
      rfl

theorem mapM_row_ok {α : Type} (l : List α) (r : α → RowVal) :
    ((l.map (fun a => Value.row (r a))).mapM (fun v => match v with
        | .row rr => Except.ok rr
        | _ => Except.error "assemble: not a feature row")) =
      Except.ok (l.map r) := by
  induction l with
  | nil => rfl
  | cons a l ih => simp only [List.map_cons, List.mapM_cons, ih]; rfl

theorem mapM_lab_ok {α : Type} (l : List α) (s : α → String) :
    ((l.map (fun a => Value.lab (s a))).mapM (fun v => match v with
        | .lab x => Except.ok x
        | _ => Except.error "save: not a label")) =
      Except.ok (l.map s) := by
  induction l with
  | nil => rfl
  | cons a l ih => simp only [List.map_cons, List.mapM_cons, ih]; rfl

/-- Evaluation of the submitted pipeline over series data: every series
yields one row; a series on which featurization fails yields an imputed row
(missing in-band, then imputed), the others a computed row; the labels ride
along to the save stage.  `raise_exceptions := false` is what keeps the
per-item failure in-band. -/
theorem evalNode_pipeline (env : String → Option SeriesData)
    (series : List (String × SeriesData)) (feats : List String) (path : String)
    (henv : ∀ p ∈ series, env p.1 = some p.2) :
    evalNode env
      (TaskNode.save
        (TaskNode.impute
          (TaskNode.assemble
            ((series.map (fun p => TaskNode.load p.1)).map
              (fun ts => TaskNode.featurize ts feats none false))
            (series.map (fun p => TaskNode.load p.1)))
          false)
        path
        ((series.map (fun p => TaskNode.load p.1)).map TaskNode.label)) =
      .ok (.saved path
        (series.map (fun p =>
          if p.2.featurizeFails then RowVal.imputedRow else RowVal.computed))
        (series.map (fun p => p.2.label))) := by
  have hload : ∀ p ∈ series, evalNode env (TaskNode.load p.1) = .ok (.ts p.2) := by
    intro p hp
    simp [evalNode, henv p hp]
  have hts : evalList env (series.map (fun p => TaskNode.load p.1)) =
      .ok (series.map (fun p => Value.ts p.2)) :=
    evalList_map_ok env series _ _ hload
  have hfeat : evalList env
      ((series.map (fun p => TaskNode.load p.1)).map
        (fun ts => TaskNode.featurize ts feats none false)) =
      .ok (series.map (fun p =>
        Value.row (if p.2.featurizeFails then RowVal.missingRow else RowVal.computed))) := by
    rw [List.map_map]
    refine evalList_map_ok env series _ _ ?_
    intro p hp
    simp only [Function.comp_apply, evalNode, henv p hp]
    show (if p.2.featurizeFails = true then Except.ok (Value.row RowVal.missingRow)
          else Except.ok (Value.row RowVal.computed)) =
        Except.ok (Value.row
          (if p.2.featurizeFails then RowVal.missingRow else RowVal.computed))
    cases hb : p.2.featurizeFails <;> simp [hb]
  have hlab : evalList env
      ((series.map (fun p => TaskNode.load p.1)).map TaskNode.label) =
      .ok (series.map (fun p => Value.lab p.2.label)) := by
    rw [List.map_map]
    refine evalList_map_ok env series _ _ ?_
    intro p hp
    simp only [Function.comp_apply, evalNode, henv p hp]
    rfl
  have hassemble : evalNode env
      (TaskNode.assemble
        ((series.map (fun p => TaskNode.load p.1)).map
          (fun ts => TaskNode.featurize ts feats none false))
        (series.map (fun p => TaskNode.load p.1))) =
      .ok (.table (series.map (fun p =>
        if p.2.featurizeFails then RowVal.missingRow else RowVal.computed))) := by
    simp only [evalNode, hfeat, hts]
    show ((series.map (fun p =>
        Value.row (if p.2.featurizeFails then RowVal.missingRow else RowVal.computed))).mapM
          (fun v => match v with
            | .row r => Except.ok r
            | _ => Except.error "assemble: not a feature row")) >>=
        (fun rows => Except.ok (Value.table rows)) = _
    rw [mapM_row_ok series
      (fun p => if p.2.featurizeFails then RowVal.missingRow else RowVal.computed)]
    rfl
  have himpute : evalNode env
      (TaskNode.impute
        (TaskNode.assemble
          ((series.map (fun p => TaskNode.load p.1)).map
            (fun ts => TaskNode.featurize ts feats none false))
          (series.map (fun p => TaskNode.load p.1)))
        false) =
      .ok (.table (series.map (fun p =>
        if p.2.featurizeFails then RowVal.imputedRow else RowVal.computed))) := by
    show (evalNode env
        (TaskNode.assemble
          ((series.map (fun p => TaskNode.load p.1)).map
            (fun ts => TaskNode.featurize ts feats none false))
          (series.map (fun p => TaskNode.load p.1))) >>= fun v =>
        match v with
        | Value.table rows =>
            Except.ok (Value.table (rows.map (fun r =>
              match r with | RowVal.missingRow => RowVal.imputedRow | x => x)))
        | _ => Except.error "impute: not a table") = _
    rw [hassemble]
    show Except.ok (Value.table
        ((series.map (fun p =>
          if p.2.featurizeFails then RowVal.missingRow else RowVal.computed)).map
            (fun r => match r with | RowVal.missingRow => RowVal.imputedRow | x => x))) = _
    rw [List.map_map]
    have : series.map ((fun r =>
          match r with | RowVal.missingRow => RowVal.imputedRow | x => x) ∘
        (fun p => if p.2.featurizeFails then RowVal.missingRow else RowVal.computed)) =
        series.map (fun p =>
          if p.2.featurizeFails then RowVal.imputedRow else RowVal.computed) := by
      refine List.map_eq_map_iff.mpr ?_
      intro p _
      cases hb : p.2.featurizeFails <;> simp [hb]
    rw [this]
  show (evalNode env
      (TaskNode.impute
        (TaskNode.assemble
          ((series.map (fun p => TaskNode.load p.1)).map
            (fun ts => TaskNode.featurize ts feats none false))
          (series.map (fun p => TaskNode.load p.1)))
        false) >>= fun v =>
      match v with
      | Value.table rows =>
          evalList env ((series.map (fun p => TaskNode.load p.1)).map TaskNode.label) >>=
            fun lvs =>
              (lvs.mapM (fun v => match v with
                | .lab s => Except.ok s
                | _ => Except.error "save: not a label")) >>=
                fun labs => Except.ok (Value.saved path rows labs)
      | _ => Except.error "save: not a table") = _
  rw [himpute, hlab]
  show ((series.map (fun p => Value.lab p.2.label)).mapM
      (fun v => match v with
        | .lab s => Except.ok s
        | _ => Except.error "save: not a label")) >>=
    (fun labs => Except.ok (Value.saved path
      (series.map (fun p =>
        if p.2.featurizeFails then RowVal.imputedRow else RowVal.computed)) labs)) = _
  rw [mapM_lab_ok series (fun p => p.2.label)]
  rfl

/-! ### Helper lemmas on script-path collection -/

theorem scriptsList_loads {α : Type} (l : List α) (u : α → String) :
    scriptsList (l.map (fun a => TaskNode.load (u a))) = [] := by
  induction l with
  | nil => rfl
  | cons a l ih => simp [scriptsList, TaskNode.scripts, ih]

theorem scriptsList_labels {α : Type} (l : List α) (u : α → String) :
    scriptsList (l.map (fun a => TaskNode.label (TaskNode.load (u a)))) = [] := by
  induction l with
  | nil => rfl
  | cons a l ih => simp [scriptsList, TaskNode.scripts, ih]

theorem scriptsList_featurize {α : Type} (l : List α) (u : α → String)
    (feats : List String) (sp : Option String) (re : Bool) :
    scriptsList (l.map (fun a => TaskNode.featurize (TaskNode.load (u a)) feats sp re)) =
      List.replicate l.length sp := by
  induction l with
  | nil => rfl
  | cons a l ih =>
      simp [scriptsList, TaskNode.scripts, ih, List.replicate_succ]

/-- Every `custom_script_path` in the graph `post` submits is `None`. -/
theorem terminalFuture_scripts (env : PostEnv) (req : Request) (d : Dataset) :
    ∀ sp ∈ (terminalFuture env req d).scripts, sp = none := by
  intro sp hsp
  simp only [terminalFuture, TaskNode.scripts, List.map_map, Function.comp_def] at hsp
  rw [scriptsList_featurize d.files DSFile.uri, scriptsList_loads d.files DSFile.uri,
    scriptsList_labels d.files DSFile.uri] at hsp
  simp only [List.append_nil, List.nil_append] at hsp
  exact List.eq_of_mem_replicate hsp

/-! ### Claim C1 -/

/-- C1 counterexample: after a successful watcher run the record's `task_id`
is `None` (absent) — `fset.task_id = None` at source line 39 — not the empty
string `""` that the claim's concrete scenario asserts. -/
theorem C1_taskId_is_none_not_empty_string :
    ((FeatureHandler._await_featurization (.ok ()) exFset exDbPending 7).1.records.map
      Featureset.task_id) = [none] ∧
    ¬ ((FeatureHandler._await_featurization (.ok ()) exFset exDbPending 7).1.records.map
      Featureset.task_id) = [some ""] := by
  constructor <;> decide

/-- C1 (amended: the watcher clears `taskId` to `None`/absent rather than to
the empty string): on a successfully resolved future the watcher re-attaches
the record (`merge`), commits the record with `task_id` cleared and
`finished` stamped with the current time, and only then emits exactly one
success notification referencing the job's name followed by exactly one
refresh-list event, in that order. -/
theorem C1_success_reconciliation (fset : Featureset) (db : Session) (now : Nat) :
    (FeatureHandler._await_featurization (.ok ()) fset db now).2 =
      [.merge fset,
       .commit (FeatureHandler._await_featurization (.ok ()) fset db now).1,
       .action "baselayer/SHOW_NOTIFICATION"
         (some { note := "Calculation of featureset '" ++ fset.name ++ "' completed.",
                 type := none }),
       .action "cesium/FETCH_FEATURESETS" none] ∧
    (∃ r ∈ (FeatureHandler._await_featurization (.ok ()) fset db now).1.records,
      r.id = fset.id) ∧
    (∀ r ∈ (FeatureHandler._await_featurization (.ok ()) fset db now).1.records,
      r.id = fset.id → r.task_id = none ∧ r.finished = some now) := by
  refine ⟨rfl, ?_, ?_⟩
  · obtain ⟨r, hr, hid⟩ := Session.exists_mem_setRecord (db.merge fset)
      { fset with task_id := none, finished := some now }
    exact ⟨r, hr, hid⟩
  · intro r hr hid
    have hre := Session.mem_setRecord_eq
      (s := db.merge fset) (f := { fset with task_id := none, finished := some now })
      hr hid
    rw [hre]
    exact ⟨rfl, rfl⟩

/-- Witness for C1 at the concrete scenario (record `exFset`, store holding
it, resolution time 7). -/
theorem C1_success_reconciliation_witness :
    (FeatureHandler._await_featurization (.ok ()) exFset exDbPending 7).2 =
      [.merge exFset,
       .commit (FeatureHandler._await_featurization (.ok ()) exFset exDbPending 7).1,
       .action "baselayer/SHOW_NOTIFICATION"
         (some { note := "Calculation of featureset '" ++ exFset.name ++ "' completed.",
                 type := none }),
       .action "cesium/FETCH_FEATURESETS" none] ∧
    (∃ r ∈ (FeatureHandler._await_featurization (.ok ()) exFset exDbPending 7).1.records,
      r.id = exFset.id) ∧
    (∀ r ∈ (FeatureHandler._await_featurization (.ok ()) exFset exDbPending 7).1.records,
      r.id = exFset.id → r.task_id = none ∧ r.finished = some 7) :=
  C1_success_reconciliation exFset exDbPending 7

/-! ### Claim C2 -/

/-- C2: on any pipeline exception the watcher deletes the record, commits
the deletion, then emits exactly one error-flagged notification carrying the
job's name and the stringified failure, followed by exactly one refresh-list
event, in that order; the record is gone from the store and from every
subsequent listing query, and the trace contains no further step (no
retry). -/
theorem C2_failure_reconciliation (e : String) (fset : Featureset) (db : Session)
    (now : Nat) :
    (FeatureHandler._await_featurization (.error e) fset db now).2 =
      [.delete fset,
       .commit (FeatureHandler._await_featurization (.error e) fset db now).1,
       .action "baselayer/SHOW_NOTIFICATION"
         (some { note := "Cannot featurize " ++ fset.name ++ ": " ++ e,
                 type := some "error" }),
       .action "cesium/FETCH_FEATURESETS" none] ∧
    (∀ r ∈ (FeatureHandler._await_featurization (.error e) fset db now).1.records,
      r.id ≠ fset.id) ∧
    (∀ projects, ∀ r ∈ FeatureHandler.get
        (FeatureHandler._await_featurization (.error e) fset db now).1 projects,
      r.id ≠ fset.id) := by
  refine ⟨rfl, ?_, ?_⟩
  · intro r hr
    exact Session.mem_deleteRecord_ne hr
  · intro projects r hr
    simp only [FeatureHandler.get, List.mem_filter] at hr
    exact Session.mem_deleteRecord_ne hr.1

/-- Witness for C2 at a concrete failing pipeline. -/
theorem C2_failure_reconciliation_witness :
    (FeatureHandler._await_featurization (.error "boom") exFset exDbPending 7).2 =
      [.delete exFset,
       .commit (FeatureHandler._await_featurization (.error "boom") exFset exDbPending 7).1,
       .action "baselayer/SHOW_NOTIFICATION"
         (some { note := "Cannot featurize " ++ exFset.name ++ ": " ++ "boom",
                 type := some "error" }),
       .action "cesium/FETCH_FEATURESETS" none] ∧
    (∀ r ∈ (FeatureHandler._await_featurization (.error "boom") exFset exDbPending 7).1.records,
      r.id ≠ exFset.id) ∧
    (∀ projects, ∀ r ∈ FeatureHandler.get
        (FeatureHandler._await_featurization (.error "boom") exFset exDbPending 7).1 projects,
      r.id ≠ exFset.id) :=
  C2_failure_reconciliation "boom" exFset exDbPending 7

/-! ### Claim C9 -/

/-- C9 counterexample: a concrete failure-path watcher run applies its
mutation (a `delete` occurs) without ever re-attaching the record — the
trace contains no `merge` event, refuting "re-attaches ... regardless of
whether the pipeline succeeded or failed". -/
theorem C9_failure_run_never_reattaches :
    ((FeatureHandler._await_featurization (.error "boom") exFset exDbPending 3).2.any
      WEvent.isMerge) = false ∧
    ((FeatureHandler._await_featurization (.error "boom") exFset exDbPending 3).2.any
      WEvent.isDelete) = true := by
  constructor <;> rfl

/-- C9 (amended: only the success path re-attaches): on success the watcher's
first step is the `merge` re-attachment, before the commit of its mutation;
on failure it deletes the record it was handed without any re-attachment —
the failure trace starts with the `delete` and contains no `merge` event. -/
theorem C9_reattach_only_on_success (e : String) (fset : Featureset) (db : Session)
    (now : Nat) :
    (FeatureHandler._await_featurization (.ok ()) fset db now).2.head? =
      some (.merge fset) ∧
    (FeatureHandler._await_featurization (.error e) fset db now).2.head? =
      some (.delete fset) ∧
    ∀ ev ∈ (FeatureHandler._await_featurization (.error e) fset db now).2,
      WEvent.isMerge ev = false := by
  refine ⟨rfl, rfl, ?_⟩
  intro ev hev
  simp only [FeatureHandler._await_featurization] at hev
  fin_cases hev <;> rfl

/-- Witness for C9 (amended) at concrete inputs. -/
theorem C9_reattach_only_on_success_witness :
    (FeatureHandler._await_featurization (.ok ()) exFset exDbPending 3).2.head? =
      some (.merge exFset) ∧
    (FeatureHandler._await_featurization (.error "boom") exFset exDbPending 3).2.head? =
      some (.delete exFset) ∧
    ∀ ev ∈ (FeatureHandler._await_featurization (.error "boom") exFset exDbPending 3).2,
      WEvent.isMerge ev = false :=
  C9_reattach_only_on_success "boom" exFset exDbPending 3

/-! ### Claim C3 -/

/-- C3: a submission whose filtered feature list is non-empty and whose
dataset is owned by the requester returns success with a record whose
`task_id` is the (non-empty) correlation key of the terminal persist future
and whose `finished` is absent, and the trace commits the store containing
the record with that `task_id` strictly before the success response. -/
theorem C3_pending_record_committed_before_success (env : PostEnv) (req : Request)
    (db : Session) (d : Dataset)
    (h1 : features_to_use env.catalog req ≠ [])
    (h2 : queryOne env.datasets req.datasetID = .ok d)
    (h3 : d.is_owned_by env.current_user = true)
    (hkey : ∀ n, env.keyOf n ≠ "") :
    ∃ fset future,
      (FeatureHandler.post env req db).outcome = .success fset future ∧
      fset.task_id = some (env.keyOf future) ∧
      fset.task_id ≠ none ∧ fset.task_id ≠ some "" ∧
      fset.finished = none ∧
      (∃ i j : Nat, i < j ∧
        (FeatureHandler.post env req db).events[i]? =
          some (WEvent.commit (FeatureHandler.post env req db).db) ∧
        (FeatureHandler.post env req db).events[j]? =
          some (WEvent.respondSuccess fset "cesium/FETCH_FEATURESETS")) ∧
      ∃ r ∈ (FeatureHandler.post env req db).db.records,
        r.id = fset.id ∧ r.task_id = some (env.keyOf future) := by
  rw [post_success_eq env req db d h1 h2 h3]
  refine ⟨submittedRecord env req d, terminalFuture env req d, rfl, rfl, by
      simp [submittedRecord, pendingRecord], ?_, rfl, ⟨2, 4, by omega, rfl, rfl⟩, ?_⟩
  · intro h
    simp only [submittedRecord, pendingRecord] at h
    exact hkey _ (Option.some.inj h)
  · obtain ⟨r, hr, hid⟩ := Session.exists_mem_setRecord
      (Session.add db (pendingRecord env req d)) (submittedRecord env req d)
    have hre := Session.mem_setRecord_eq hr hid
    refine ⟨r, hr, hid, ?_⟩
    rw [hre]
    rfl

/-- Witness for C3 at the concrete environment: key `"t-123"`, two selected
catalog features, dataset owned by user 42. -/
theorem C3_pending_record_committed_before_success_witness :
    features_to_use exEnv.catalog exReq ≠ [] ∧
    queryOne exEnv.datasets exReq.datasetID = .ok exDataset ∧
    exDataset.is_owned_by exEnv.current_user = true ∧
    ∃ fset future,
      (FeatureHandler.post exEnv exReq exDb).outcome = .success fset future ∧
      fset.task_id = some (exEnv.keyOf future) ∧
      fset.task_id ≠ none ∧ fset.task_id ≠ some "" ∧
      fset.finished = none ∧
      (∃ i j : Nat, i < j ∧
        (FeatureHandler.post exEnv exReq exDb).events[i]? =
          some (WEvent.commit (FeatureHandler.post exEnv exReq exDb).db) ∧
        (FeatureHandler.post exEnv exReq exDb).events[j]? =
          some (WEvent.respondSuccess fset "cesium/FETCH_FEATURESETS")) ∧
      ∃ r ∈ (FeatureHandler.post exEnv exReq exDb).db.records,
        r.id = fset.id ∧ r.task_id = some (exEnv.keyOf future) :=
  ⟨by decide, rfl, rfl,
   C3_pending_record_committed_before_success exEnv exReq exDb exDataset
     (by decide) rfl rfl (fun n => by
       show ("t-123" : String) ≠ ""
       decide)⟩

/-! ### Claim C4 -/

/-- C4: the feature list used is exactly the request keys that are in the
catalog and truthy (unknown names silently dropped); an empty filtered list
yields the validation error with no store change and no event other than the
error response (no record, no submission); on success the record's stored
feature list is exactly the filtered list. -/
theorem C4_feature_filtering (env : PostEnv) (req : Request) (db : Session) :
    (∀ k, k ∈ features_to_use env.catalog req ↔
      ∃ v, (k, v) ∈ req.items ∧ k ∈ env.catalog ∧ v.truthy = true) ∧
    (features_to_use env.catalog req = [] →
      FeatureHandler.post env req db =
        { outcome := .error "At least one feature must be selected.",
          db := db,
          events := [.respondError "At least one feature must be selected."] }) ∧
    (∀ fset future,
      (FeatureHandler.post env req db).outcome = .success fset future →
      fset.features_list = features_to_use env.catalog req) := by
  refine ⟨?_, ?_, ?_⟩
  · intro k
    constructor
    · intro hk
      simp only [features_to_use, List.mem_map, List.mem_filter] at hk
      obtain ⟨kv, ⟨hmem, hcond⟩, hk1⟩ := hk
      rw [Bool.and_eq_true] at hcond
      subst hk1
      exact ⟨kv.2, hmem, List.elem_iff.mp hcond.1, hcond.2⟩
    · rintro ⟨v, hmem, hcat, htr⟩
      simp only [features_to_use, List.mem_map, List.mem_filter]
      refine ⟨(k, v), ⟨hmem, ?_⟩, rfl⟩
      rw [Bool.and_eq_true]
      exact ⟨List.elem_iff.mpr hcat, htr⟩
  · intro h
    simp [FeatureHandler.post, h]
  · intro fset future hsucc
    by_cases hc : (features_to_use env.catalog req).isEmpty = true
    · simp [FeatureHandler.post, hc] at hsucc
    · have h1 : features_to_use env.catalog req ≠ [] := by
        intro h
        exact hc (by rw [h]; rfl)
      cases hq : queryOne env.datasets req.datasetID with
      | error e => simp [FeatureHandler.post, hc, hq] at hsucc
      | ok dth =>
          cases how : dth.is_owned_by env.current_user with
          | false => simp [FeatureHandler.post, hc, hq, how] at hsucc
          | true =>
              rw [post_success_eq env req db dth h1 hq how] at hsucc
              have hfs := (PostOutcome.success.injEq _ _ _ _).mp hsucc
              rw [← hfs.1]
              rfl

/-- Witness for C4 at the concrete request (its `∀`-parts instantiated at
the running example). -/
theorem C4_feature_filtering_witness :
    (∀ k, k ∈ features_to_use exEnv.catalog exReq ↔
      ∃ v, (k, v) ∈ exReq.items ∧ k ∈ exEnv.catalog ∧ v.truthy = true) ∧
    (features_to_use exEnv.catalog exReq = [] →
      FeatureHandler.post exEnv exReq exDb =
        { outcome := .error "At least one feature must be selected.",
          db := exDb,
          events := [.respondError "At least one feature must be selected."] }) ∧
    (∀ fset future,
      (FeatureHandler.post exEnv exReq exDb).outcome = .success fset future →
      fset.features_list = features_to_use exEnv.catalog exReq) :=
  C4_feature_filtering exEnv exReq exDb

/-! ### Claim C7 -/

/-- C7 counterexample: a request with an unowned dataset but an empty
filtered feature list gets the validation error, not the access-denied
failure — the empty-selection check at source line 63 fires before the
ownership check at line 70, so the claim does not hold for *every* unowned
submission. -/
theorem C7_validation_error_precedes_authorization :
    exDataset.is_owned_by 7 = false ∧
    (FeatureHandler.post { exEnv with current_user := 7 }
        { exReq with featureFlags := [] } exDb).outcome =
      .error "At least one feature must be selected." ∧
    (FeatureHandler.post { exEnv with current_user := 7 }
        { exReq with featureFlags := [] } exDb).outcome ≠
      .exn "AccessError: No such data set" := by
  refine ⟨rfl, rfl, ?_⟩
  intro h
  rw [show (FeatureHandler.post { exEnv with current_user := 7 }
      { exReq with featureFlags := [] } exDb).outcome =
      .error "At least one feature must be selected." from rfl] at h
  exact PostOutcome.noConfusion h

/-- C7 (amended: restricted to submissions that pass the earlier empty-
selection validation): a submission with a non-empty filtered feature list
whose dataset exists but is not owned by the requester raises the
access-denied failure, with the store unchanged and no event emitted — in
particular no record is created or added and no task is submitted. -/
theorem C7_authorization_failure (env : PostEnv) (req : Request) (db : Session)
    (d : Dataset)
    (h1 : features_to_use env.catalog req ≠ [])
    (h2 : queryOne env.datasets req.datasetID = .ok d)
    (h3 : d.is_owned_by env.current_user = false) :
    FeatureHandler.post env req db =
      { outcome := .exn "AccessError: No such data set", db := db, events := [] } := by
  have hne : (features_to_use env.catalog req).isEmpty = false :=
    List.isEmpty_eq_false.mpr h1
  simp [FeatureHandler.post, hne, h2, h3]

/-- Witness for C7 (amended): user 7 does not own `exDataset`. -/
theorem C7_authorization_failure_witness :
    features_to_use exEnv.catalog exReq ≠ [] ∧
    exDataset.is_owned_by 7 = false ∧
    FeatureHandler.post { exEnv with current_user := 7 } exReq exDb =
      { outcome := .exn "AccessError: No such data set", db := exDb, events := [] } :=
  ⟨by decide, rfl,
   C7_authorization_failure { exEnv with current_user := 7 } exReq exDb exDataset
     (by decide) rfl rfl⟩

/-! ### Claim C5 -/

/-- C5 counterexample: at a concrete submission the terminal future is the
source's graph — whose assemble stage is fed the per-series feature rows and
the *loaded time series* (`assemble_featureset(all_features,
all_time_series)`, source line 93) — and differs from the graph the claim
describes, in which assemble combines the feature outputs with the *label*
futures. -/
theorem C5_assemble_not_fed_labels :
    (FeatureHandler.post exEnv exReq exDb).outcome.futureOf =
      some (TaskNode.save
        (TaskNode.impute
          (TaskNode.assemble
            [TaskNode.featurize (TaskNode.load "a.dat") ["amplitude", "period"] none false,
             TaskNode.featurize (TaskNode.load "b.dat") ["amplitude", "period"] none false,
             TaskNode.featurize (TaskNode.load "c.dat") ["amplitude", "period"] none false]
            [TaskNode.load "a.dat", TaskNode.load "b.dat", TaskNode.load "c.dat"])
          false)
        "feats/u1_featureset.npz"
        [TaskNode.label (TaskNode.load "a.dat"), TaskNode.label (TaskNode.load "b.dat"),
         TaskNode.label (TaskNode.load "c.dat")]) ∧
    (FeatureHandler.post exEnv exReq exDb).outcome.futureOf ≠
      some (claimedGraphC5 ["a.dat", "b.dat", "c.dat"] ["amplitude", "period"] none
        "feats/u1_featureset.npz") := by
  refine ⟨rfl, ?_⟩
  rw [show (FeatureHandler.post exEnv exReq exDb).outcome.futureOf =
      some (TaskNode.save
        (TaskNode.impute
          (TaskNode.assemble
            [TaskNode.featurize (TaskNode.load "a.dat") ["amplitude", "period"] none false,
             TaskNode.featurize (TaskNode.load "b.dat") ["amplitude", "period"] none false,
             TaskNode.featurize (TaskNode.load "c.dat") ["amplitude", "period"] none false]
            [TaskNode.load "a.dat", TaskNode.load "b.dat", TaskNode.load "c.dat"])
          false)
        "feats/u1_featureset.npz"
        [TaskNode.label (TaskNode.load "a.dat"), TaskNode.label (TaskNode.load "b.dat"),
         TaskNode.label (TaskNode.load "c.dat")]) from rfl]
  simp [claimedGraphC5]

/-- C5 (amended: the assemble stage combines the per-series feature rows
with the loaded series, and the per-series labels are passed to the terminal
persist task): a valid submission submits exactly the dependent graph —
parallel load of each dataset file, parallel label extraction over the
loaded series, parallel feature computation over the loaded series with the
selected features and `raise_exceptions` off, assembly, imputation (not in
place), and a persist of the artifact (with the labels) at the path built
from the submission-time UUID, which is also the record's `file_uri`; the
future handed to the spawned watcher is that terminal persist future. -/
theorem C5_task_graph_structure (env : PostEnv) (req : Request) (db : Session)
    (d : Dataset)
    (h1 : features_to_use env.catalog req ≠ [])
    (h2 : queryOne env.datasets req.datasetID = .ok d)
    (h3 : d.is_owned_by env.current_user = true) :
    ∃ fset,
      (FeatureHandler.post env req db).outcome = .success fset
        (TaskNode.save
          (TaskNode.impute
            (TaskNode.assemble
              ((d.files.map (fun f => TaskNode.load f.uri)).map
                (fun ts => TaskNode.featurize ts (features_to_use env.catalog req)
                  none false))
              (d.files.map (fun f => TaskNode.load f.uri)))
            false)
          (env.features_folder ++ "/" ++ env.fresh_uuid ++ "_featureset.npz")
          ((d.files.map (fun f => TaskNode.load f.uri)).map TaskNode.label)) ∧
      fset.file_uri = env.features_folder ++ "/" ++ env.fresh_uuid ++
        "_featureset.npz" ∧
      WEvent.spawnWatcher
        (TaskNode.save
          (TaskNode.impute
            (TaskNode.assemble
              ((d.files.map (fun f => TaskNode.load f.uri)).map
                (fun ts => TaskNode.featurize ts (features_to_use env.catalog req)
                  none false))
              (d.files.map (fun f => TaskNode.load f.uri)))
            false)
          (env.features_folder ++ "/" ++ env.fresh_uuid ++ "_featureset.npz")
          ((d.files.map (fun f => TaskNode.load f.uri)).map TaskNode.label)) fset ∈
        (FeatureHandler.post env req db).events := by
  rw [post_success_eq env req db d h1 h2 h3]
  refine ⟨submittedRecord env req d, rfl, rfl, ?_⟩
  simp only [List.mem_cons]
  exact Or.inr (Or.inr (Or.inr (Or.inl rfl)))

/-- Witness for C5 (amended) at the concrete environment. -/
theorem C5_task_graph_structure_witness :
    features_to_use exEnv.catalog exReq ≠ [] ∧
    queryOne exEnv.datasets exReq.datasetID = .ok exDataset ∧
    exDataset.is_owned_by exEnv.current_user = true ∧
    ∃ fset,
      (FeatureHandler.post exEnv exReq exDb).outcome = .success fset
        (TaskNode.save
          (TaskNode.impute
            (TaskNode.assemble
              ((exDataset.files.map (fun f => TaskNode.load f.uri)).map
                (fun ts => TaskNode.featurize ts (features_to_use exEnv.catalog exReq)
                  none false))
              (exDataset.files.map (fun f => TaskNode.load f.uri)))
            false)
          (exEnv.features_folder ++ "/" ++ exEnv.fresh_uuid ++ "_featureset.npz")
          ((exDataset.files.map (fun f => TaskNode.load f.uri)).map TaskNode.label)) ∧
      fset.file_uri = exEnv.features_folder ++ "/" ++ exEnv.fresh_uuid ++
        "_featureset.npz" ∧
      WEvent.spawnWatcher
        (TaskNode.save
          (TaskNode.impute
            (TaskNode.assemble
              ((exDataset.files.map (fun f => TaskNode.load f.uri)).map
                (fun ts => TaskNode.featurize ts (features_to_use exEnv.catalog exReq)
                  none false))
              (exDataset.files.map (fun f => TaskNode.load f.uri)))
            false)
          (exEnv.features_folder ++ "/" ++ exEnv.fresh_uuid ++ "_featureset.npz")
          ((exDataset.files.map (fun f => TaskNode.load f.uri)).map TaskNode.label)) fset ∈
        (FeatureHandler.post exEnv exReq exDb).events :=
  ⟨by decide, rfl, rfl,
   C5_task_graph_structure exEnv exReq exDb exDataset (by decide) rfl rfl⟩

/-! ### Claim C6 -/

/-- C6: the feature-computation stage is submitted with
`raise_exceptions := false`, so per-series extraction failures stay in-band:
for any storage contents covering the dataset's files, the submitted
pipeline evaluates without any pipeline-level error to a saved artifact with
one row per series — failing series yield imputed rows (missing, then
imputed), the rest computed rows — and the row count equals the file
count. -/
theorem C6_per_item_failures_stay_in_band (env : PostEnv) (req : Request)
    (db : Session) (d : Dataset) (semEnv : String → Option SeriesData)
    (series : List (String × SeriesData))
    (h1 : features_to_use env.catalog req ≠ [])
    (h2 : queryOne env.datasets req.datasetID = .ok d)
    (h3 : d.is_owned_by env.current_user = true)
    (h4 : d.files = series.map (fun p => ⟨p.1⟩))
    (h5 : ∀ p ∈ series, semEnv p.1 = some p.2) :
    ∃ fset future,
      (FeatureHandler.post env req db).outcome = .success fset future ∧
      evalNode semEnv future =
        .ok (.saved fset.file_uri
          (series.map (fun p =>
            if p.2.featurizeFails then RowVal.imputedRow else RowVal.computed))
          (series.map (fun p => p.2.label))) ∧
      (series.map (fun p =>
        if p.2.featurizeFails then RowVal.imputedRow else RowVal.computed)).length =
        d.files.length := by
  rw [post_success_eq env req db d h1 h2 h3]
  refine ⟨submittedRecord env req d, terminalFuture env req d, rfl, ?_, by simp [h4]⟩
  have hfiles : d.files.map (fun f => TaskNode.load f.uri) =
      series.map (fun p => TaskNode.load p.1) := by
    rw [h4, List.map_map]
    rfl
  simp only [terminalFuture, hfiles]
  exact evalNode_pipeline semEnv series (features_to_use env.catalog req)
    (env.features_folder ++ "/" ++ env.fresh_uuid ++ "_featureset.npz") h5

/-- Witness for C6 at the concrete scenario: three series, featurization
fails on the second; the saved artifact still has three rows, the second
imputed. -/
theorem C6_per_item_failures_stay_in_band_witness :
    exDataset.files = [("a.dat", (⟨"A", false⟩ : SeriesData)),
      ("b.dat", ⟨"B", true⟩), ("c.dat", ⟨"C", false⟩)].map
        (fun p => (⟨p.1⟩ : DSFile)) ∧
    ∃ fset future,
      (FeatureHandler.post exEnv exReq exDb).outcome = .success fset future ∧
      evalNode exSemEnv future =
        .ok (.saved fset.file_uri
          ([("a.dat", (⟨"A", false⟩ : SeriesData)),
            ("b.dat", ⟨"B", true⟩), ("c.dat", ⟨"C", false⟩)].map (fun p =>
            if p.2.featurizeFails then RowVal.imputedRow else RowVal.computed))
          ([("a.dat", (⟨"A", false⟩ : SeriesData)),
            ("b.dat", ⟨"B", true⟩), ("c.dat", ⟨"C", false⟩)].map
              (fun p => p.2.label))) ∧
      ([("a.dat", (⟨"A", false⟩ : SeriesData)),
        ("b.dat", ⟨"B", true⟩), ("c.dat", ⟨"C", false⟩)].map (fun p =>
        if p.2.featurizeFails then RowVal.imputedRow else RowVal.computed)).length =
        exDataset.files.length :=
  ⟨by decide,
   C6_per_item_failures_stay_in_band exEnv exReq exDb exDataset exSemEnv
     [("a.dat", ⟨"A", false⟩), ("b.dat", ⟨"B", true⟩), ("c.dat", ⟨"C", false⟩)]
     (by decide) rfl rfl (by decide) (by decide)⟩

/-! ### Claim C8 -/

/-- C8: at every commit point the Job Record satisfies the lifecycle
invariant — at `post`'s commit the record is pending (`task_id` set,
`finished` absent); at the watcher's success commit it is completed
(`task_id` cleared, `finished` set to the reconciliation time); at the
watcher's failure commit the record is gone, and in particular absent from
every listing query over the committed snapshot. -/
theorem C8_commit_point_invariants (env : PostEnv) (req : Request) (db : Session)
    (d : Dataset) (fsetW : Featureset) (dbW : Session) (now : Nat) (err : String)
    (h1 : features_to_use env.catalog req ≠ [])
    (h2 : queryOne env.datasets req.datasetID = .ok d)
    (h3 : d.is_owned_by env.current_user = true) :
    (∀ s ∈ commitsOf (FeatureHandler.post env req db).events,
      (∃ r ∈ s.records, r.id = env.new_id) ∧
      ∀ r ∈ s.records, r.id = env.new_id →
        r.task_id.isSome = true ∧ r.finished = none) ∧
    (∀ s ∈ commitsOf (FeatureHandler._await_featurization (.ok ()) fsetW dbW now).2,
      (∃ r ∈ s.records, r.id = fsetW.id) ∧
      ∀ r ∈ s.records, r.id = fsetW.id → r.task_id = none ∧ r.finished = some now) ∧
    (∀ s ∈ commitsOf (FeatureHandler._await_featurization (.error err) fsetW dbW now).2,
      (∀ r ∈ s.records, r.id ≠ fsetW.id) ∧
      ∀ projects, ∀ r ∈ FeatureHandler.get s projects, r.id ≠ fsetW.id) := by
  refine ⟨?_, ?_, ?_⟩
  · rw [post_success_eq env req db d h1 h2 h3]
    intro s hs
    simp only [commitsOf, List.filterMap_cons, List.filterMap_nil] at hs
    rw [List.mem_singleton] at hs
    subst hs
    constructor
    · obtain ⟨r, hr, hid⟩ := Session.exists_mem_setRecord
        (Session.add db (pendingRecord env req d)) (submittedRecord env req d)
      exact ⟨r, hr, hid⟩
    · intro r hr hid
      have hre := Session.mem_setRecord_eq hr hid
      rw [hre]
      exact ⟨rfl, rfl⟩
  · intro s hs
    simp only [FeatureHandler._await_featurization, commitsOf, List.filterMap_cons,
      List.filterMap_nil] at hs
    rw [List.mem_singleton] at hs
    subst hs
    constructor
    · obtain ⟨r, hr, hid⟩ := Session.exists_mem_setRecord (dbW.merge fsetW)
        { fsetW with task_id := none, finished := some now }
      exact ⟨r, hr, hid⟩
    · intro r hr hid
      have hre := Session.mem_setRecord_eq
        (s := dbW.merge fsetW) (f := { fsetW with task_id := none, finished := some now })
        hr hid
      rw [hre]
      exact ⟨rfl, rfl⟩
  · intro s hs
    simp only [FeatureHandler._await_featurization, commitsOf, List.filterMap_cons,
      List.filterMap_nil] at hs
    rw [List.mem_singleton] at hs
    subst hs
    constructor
    · intro r hr
      exact Session.mem_deleteRecord_ne hr
    · intro projects r hr
      simp only [FeatureHandler.get, List.mem_filter] at hr
      exact Session.mem_deleteRecord_ne hr.1

/-- Witness for C8 at the concrete environment and watcher inputs. -/
theorem C8_commit_point_invariants_witness :
    features_to_use exEnv.catalog exReq ≠ [] ∧
    ((∀ s ∈ commitsOf (FeatureHandler.post exEnv exReq exDb).events,
      (∃ r ∈ s.records, r.id = exEnv.new_id) ∧
      ∀ r ∈ s.records, r.id = exEnv.new_id →
        r.task_id.isSome = true ∧ r.finished = none) ∧
    (∀ s ∈ commitsOf (FeatureHandler._await_featurization (.ok ()) exFset exDbPending 7).2,
      (∃ r ∈ s.records, r.id = exFset.id) ∧
      ∀ r ∈ s.records, r.id = exFset.id → r.task_id = none ∧ r.finished = some 7) ∧
    (∀ s ∈ commitsOf (FeatureHandler._await_featurization (.error "boom") exFset exDbPending 7).2,
      (∀ r ∈ s.records, r.id ≠ exFset.id) ∧
      ∀ projects, ∀ r ∈ FeatureHandler.get s projects, r.id ≠ exFset.id)) :=
  ⟨by decide,
   C8_commit_point_invariants exEnv exReq exDb exDataset exFset exDbPending 7 "boom"
     (by decide) rfl rfl⟩

/-! ### Claim C10 -/

/-- With `"customFeatsCode"` not a catalog feature name, the filtered
feature list does not depend on the `customFeatsCode` value: the request
item `("customFeatsCode", value)` fails the catalog-membership test and is
dropped by the filter whatever the value. -/
theorem features_to_use_customFeatsCode (catalog : List String) (req : Request)
    (c : String) (hcat : "customFeatsCode" ∉ catalog) :
    features_to_use catalog { req with customFeatsCode := c } =
      features_to_use catalog req := by
  simp [features_to_use, Request.items, List.filter_cons, hcat]

/-- C10: two submissions that differ only in the (string) value of
`customFeatsCode` behave identically — same outcome, same store, same event
trace — provided the literal key `"customFeatsCode"` is not itself a
catalog feature name (it is not in the real catalog); and on success the
stored record's custom-features-script field is `None` and every
`custom_script_path` handed to the feature-computation stage is `None`. -/
theorem C10_customFeatsCode_noninterference (env : PostEnv) (req : Request)
    (db : Session) (c1 c2 : String) (hcat : "customFeatsCode" ∉ env.catalog) :
    FeatureHandler.post env { req with customFeatsCode := c1 } db =
      FeatureHandler.post env { req with customFeatsCode := c2 } db ∧
    (∀ fset future,
      (FeatureHandler.post env { req with customFeatsCode := c1 } db).outcome =
        .success fset future →
      fset.custom_features_script = none ∧ ∀ sp ∈ future.scripts, sp = none) := by
  have hf1 := features_to_use_customFeatsCode env.catalog req c1 hcat
  have hf2 := features_to_use_customFeatsCode env.catalog req c2 hcat
  constructor
  · simp only [FeatureHandler.post, hf1, hf2]
  · intro fset future hsucc
    by_cases hc : (features_to_use env.catalog { req with customFeatsCode := c1 }).isEmpty
      = true
    · simp [FeatureHandler.post, hc] at hsucc
    · have h1 : features_to_use env.catalog { req with customFeatsCode := c1 } ≠ [] := by
        intro h
        exact hc (by rw [h]; rfl)
      cases hq : queryOne env.datasets
          (Request.datasetID { req with customFeatsCode := c1 }) with
      | error e => simp [FeatureHandler.post, hc, hq] at hsucc
      | ok dth =>
          cases how : dth.is_owned_by env.current_user with
          | false => simp [FeatureHandler.post, hc, hq, how] at hsucc
          | true =>
              rw [post_success_eq env { req with customFeatsCode := c1 } db dth
                h1 hq how] at hsucc
              have hfs := (PostOutcome.success.injEq _ _ _ _).mp hsucc
              constructor
              · rw [← hfs.1]
                rfl
              · rw [← hfs.2]
                exact terminalFuture_scripts env { req with customFeatsCode := c1 } dth
  
/-- Witness for C10: the two concrete submissions with codes `"x"` and
`"yz"` coincide. -/
theorem C10_customFeatsCode_noninterference_witness :
    "customFeatsCode" ∉ exEnv.catalog ∧
    (FeatureHandler.post exEnv { exReq with customFeatsCode := "x" } exDb =
      FeatureHandler.post exEnv { exReq with customFeatsCode := "yz" } exDb ∧
    (∀ fset future,
      (FeatureHandler.post exEnv { exReq with customFeatsCode := "x" } exDb).outcome =
        .success fset future →
      fset.custom_features_script = none ∧ ∀ sp ∈ future.scripts, sp = none)) :=
  ⟨by decide,
   C10_customFeatsCode_noninterference exEnv exReq exDb "x" "yz" (by decide)⟩
